import Mathlib

/-!
Transcript client (`client/src/App.jsx`): request lifecycle and exports

A shallow embedding of the `App` component's state and of its three handlers
(`handleSubmit`, `copyToClipboard`, `downloadTranscript`) together with the
transcript display expression, followed by theorems about them.

JavaScript values are dynamically typed, so the state fields that receive
response data hold `JSVal`s. Every setter call of the source is an `Update`;
a handler is the list of updates it performs, in order.
-/

namespace Transcript

/-! ## JavaScript values -/

mutual
/-- JavaScript values as they come out of `response.json()` and property
reads. A number is given by the text ToString prints for it (`0` for both
zeros), which is all this program ever asks of a number besides whether it is
zero; a string is a sequence of Unicode scalar values; an object is the list
of its own properties (keys distinct, as after `JSON.parse`) and has
`Object.prototype` as prototype. -/
inductive JSVal where
  | undefined
  | null
  | bool (b : Bool)
  | num (text : String)
  | str (s : String)
  | arr (items : JSList)
  | obj (fields : JSFields)
  deriving DecidableEq
/-- Elements of a JavaScript array. -/
inductive JSList where
  | nil
  | cons (head : JSVal) (tail : JSList)
  deriving DecidableEq
/-- Own properties of a JavaScript object. -/
inductive JSFields where
  | nil
  | cons (key : String) (value : JSVal) (rest : JSFields)
  deriving DecidableEq
end

/-- ToBoolean: what `if (v)`, `!v`, `v && _`, `v || _` and `v ? _ : _` test. -/
def JSVal.truthy : JSVal → Bool
  | .undefined => false
  | .null => false
  | .bool b => b
  | .num text => text != "0" && text != "NaN"
  | .str s => s != ""
  | .arr _ => true
  | .obj _ => true

/-- The expression `a || b`. -/
def JSVal.or (a b : JSVal) : JSVal :=
  if a.truthy then a else b

/-- Own-property lookup; `undefined` when the key is missing. -/
def JSFields.get : JSFields → String → JSVal
  | .nil, _ => .undefined
  | .cons k v rest, key => if k = key then v else rest.get key

/-- Whether the object has an own property of that name. -/
def JSFields.has : JSFields → String → Bool
  | .nil, _ => false
  | .cons k _ rest, key => k = key || rest.has key

/-- Whether reading a property of the value throws a `TypeError`. -/
def JSVal.nullish : JSVal → Bool
  | .undefined => true
  | .null => true
  | _ => false

/-- The expression `v.key` on a value that is not nullish, for the keys this
program reads (none of them is inherited from a prototype): primitives and
arrays have no such property. -/
def JSVal.field (v : JSVal) (key : String) : JSVal :=
  match v with
  | .obj fields => fields.get key
  | _ => .undefined

/-- Whether a parsed body is an object carrying an `error` property. -/
def JSVal.hasField (v : JSVal) (key : String) : Bool :=
  match v with
  | .obj fields => fields.has key
  | _ => false

mutual
/-- ToString, as applied by a template literal and by the conversions of
`writeText` and `Blob`; `none` when it throws a `TypeError`. An object is
converted by its `toString` method: a parsed body never holds a function, so
an own `toString` property is not callable, the inherited `valueOf` returns
the object itself, and the conversion throws; without such a property the
inherited method prints `[object Object]`. An array joins its elements. -/
def JSVal.toStr : JSVal → Option String
  | .undefined => some "undefined"
  | .null => some "null"
  | .bool b => some (if b then "true" else "false")
  | .num text => some text
  | .str s => some s
  | .arr items => items.join
  | .obj fields => if fields.has "toString" then none else some "[object Object]"
/-- One element of a joined array: `null` and `undefined` print as the empty
string, everything else as by ToString. -/
def JSVal.elemStr : JSVal → Option String
  | .undefined => some ""
  | .null => some ""
  | .bool b => some (if b then "true" else "false")
  | .num text => some text
  | .str s => some s
  | .arr items => items.join
  | .obj fields => if fields.has "toString" then none else some "[object Object]"
/-- The method `Array.prototype.join` with the default separator. -/
def JSList.join : JSList → Option String
  | .nil => some ""
  | .cons h .nil => h.elemStr
  | .cons h (.cons h2 t) =>
    match h.elemStr, (JSList.cons h2 t).join with
    | some a, some b => some (a ++ "," ++ b)
    | _, _ => none
end

mutual
/-- The text React renders for a value used as a child of an element (line
331): a string or a number as its text, a boolean, `null` or `undefined` as
nothing, an array as its elements one after the other; an object is not a
valid child and rendering throws: `none`. -/
def JSVal.childText : JSVal → Option String
  | .undefined => some ""
  | .null => some ""
  | .bool _ => some ""
  | .num text => some text
  | .str s => some s
  | .arr items => items.childrenText
  | .obj _ => none
/-- The text of the elements of an array child. -/
def JSList.childrenText : JSList → Option String
  | .nil => some ""
  | .cons h t =>
    match h.childText, t.childrenText with
    | some a, some b => some (a ++ b)
    | _, _ => none
end

/-! ## Component state (lines 5-13) -/

/-- The object stored by `setVideoInfo` (lines 53-58). -/
structure VideoInfo where
  videoId : JSVal
  language : JSVal
  languageCode : JSVal
  isGenerated : JSVal
  deriving DecidableEq

/-- The nine `useState` cells of `App`. `videoInfo` is `null` (`none`) or the
object built by `handleSubmit`; `youtubeUrl` only ever receives
`e.target.value`, a string; the three flags only ever receive booleans. -/
structure AppState where
  youtubeUrl : String
  transcript : JSVal
  isLoading : Bool
  error : JSVal
  videoInfo : Option VideoInfo
  videoMetadata : JSVal
  copySuccess : Bool
  includeTimestamps : Bool
  timestampedTranscript : JSVal
  deriving DecidableEq

/-- The initial values passed to `useState`. -/
def AppState.initial : AppState where
  youtubeUrl := ""
  transcript := .str ""
  isLoading := false
  error := .str ""
  videoInfo := none
  videoMetadata := .null
  copySuccess := false
  includeTimestamps := false
  timestampedTranscript := .str ""

/-- One call of a state setter. -/
inductive Update where
  | setYoutubeUrl (v : String)
  | setTranscript (v : JSVal)
  | setIsLoading (b : Bool)
  | setError (v : JSVal)
  | setVideoInfo (v : Option VideoInfo)
  | setVideoMetadata (v : JSVal)
  | setCopySuccess (b : Bool)
  | setIncludeTimestamps (b : Bool)
  | setTimestampedTranscript (v : JSVal)
  deriving DecidableEq

/-- Effect of one setter call on the state. -/
def Update.apply (u : Update) (s : AppState) : AppState :=
  match u with
  | .setYoutubeUrl v => { s with youtubeUrl := v }
  | .setTranscript v => { s with transcript := v }
  | .setIsLoading b => { s with isLoading := b }
  | .setError v => { s with error := v }
  | .setVideoInfo v => { s with videoInfo := v }
  | .setVideoMetadata v => { s with videoMetadata := v }
  | .setCopySuccess b => { s with copySuccess := b }
  | .setIncludeTimestamps b => { s with includeTimestamps := b }
  | .setTimestampedTranscript v => { s with timestampedTranscript := v }

/-- Setter calls applied in program order. -/
def applyAll (us : List Update) (s : AppState) : AppState :=
  us.foldl (fun st u => u.apply st) s

/-- Every state passed through while applying the updates, the start included. -/
def statesAlong : List Update → AppState → List AppState
  | [], s => [s]
  | u :: us, s => s :: statesAlong us (u.apply s)

/-! ## Transport (lines 29-44) -/

/-- The arguments of the `fetch` call. `payload` is the value handed to
`JSON.stringify`. -/
structure Request where
  url : String
  method : String
  contentType : String
  payload : JSVal
  deriving DecidableEq

/-- What `response.json()` yields: a rejection carrying the parse error's
message, or the parsed value. -/
inductive Body where
  | unparsable (message : String)
  | json (data : JSVal)
  deriving DecidableEq

/-- What the awaited `fetch` yields: a rejection carrying the error's
message, or a response with its numeric status and body. -/
inductive Outcome where
  | connectionError (message : String)
  | response (status : Nat) (body : Body)
  deriving DecidableEq

/-- The getter `response.ok`: the status is in the range 200-299. -/
def statusOk (status : Nat) : Bool :=
  decide (200 ≤ status) && decide (status ≤ 299)

/-- Message of the `TypeError` raised by `data.error` when `data` is `null`
(the wording is the engine's; this is V8's). -/
def nullReadMessage : String :=
  "Cannot read properties of null (reading 'error')"

/-! ## `handleSubmit` (lines 15-66) -/

/-- Lines 17-20: the guard `if (!youtubeUrl)`. -/
def validationUpdates : List Update :=
  [.setError (.str "Please enter a YouTube URL")]

/-- Lines 22-27: the setter calls made before the request is issued. -/
def pendingUpdates : List Update :=
  [.setIsLoading true,
   .setError (.str ""),
   .setTranscript (.str ""),
   .setVideoInfo none,
   .setVideoMetadata .null,
   .setCopySuccess false]

/-- Lines 30-38: the request issued for a reference. -/
def submitRequest (youtubeUrl : String) : Request where
  url := "http://127.0.0.1:5000/api/transcript"
  method := "POST"
  contentType := "application/json"
  payload := .obj (.cons "youtubeUrl" (.str youtubeUrl) .nil)

/-- Lines 51-59: the setter calls storing a body without a truthy `error`. -/
def storeUpdates (data : JSVal) : List Update :=
  [.setTranscript (data.field "transcript"),
   .setTimestampedTranscript ((data.field "timestamped_transcript").or (.str "")),
   .setVideoInfo (some {
     videoId := data.field "video_id"
     language := data.field "language"
     languageCode := data.field "language_code"
     isGenerated := data.field "is_generated" }),
   .setVideoMetadata ((data.field "video_metadata").or .null)]

/-- Lines 29-59, the `try` block from the awaited `fetch` on: the setter
calls it makes, or the message of the error it throws. Every throw precedes
the first setter call of the block. -/
def tryBlock (o : Outcome) : Except String (List Update) :=
  match o with
  | .connectionError message => .error message
  | .response status body =>
    if !statusOk status then
      .error ("HTTP error! status: " ++ toString status)
    else
      match body with
      | .unparsable message => .error message
      | .json data =>
        if data.nullish then
          .error nullReadMessage
        else if (data.field "error").truthy then
          .ok [.setError (data.field "error")]
        else
          .ok (storeUpdates data)

/-- Lines 60-62: the `catch` block. -/
def catchUpdates (message : String) : List Update :=
  [.setError (.str ("Failed to fetch transcript: " ++ message))]

/-- Lines 63-65: the `finally` block. -/
def finallyUpdates : List Update :=
  [.setIsLoading false]

/-- Lines 29-65: everything after the request was issued. -/
def completionUpdates (o : Outcome) : List Update :=
  (match tryBlock o with
   | .ok us => us
   | .error message => catchUpdates message) ++ finallyUpdates

/-- One run of `handleSubmit`: the requests it issued and its setter calls,
split at the `await fetch`. -/
structure SubmitRun where
  requests : List Request
  beforeRequest : List Update
  afterResponse : List Update
  deriving DecidableEq

/-- The handler `handleSubmit`, run in state `s`; `o` is what the transport
answers if a request is issued. -/
def handleSubmit (s : AppState) (o : Outcome) : SubmitRun :=
  if s.youtubeUrl = "" then
    { requests := [], beforeRequest := validationUpdates, afterResponse := [] }
  else
    { requests := [submitRequest s.youtubeUrl],
      beforeRequest := pendingUpdates,
      afterResponse := completionUpdates o }

/-- State when `handleSubmit` suspends at `await fetch` (or returns from the
guard). -/
def submitPending (s : AppState) (o : Outcome) : AppState :=
  applyAll (handleSubmit s o).beforeRequest s

/-- State when `handleSubmit` has finished. -/
def submitFinal (s : AppState) (o : Outcome) : AppState :=
  applyAll (handleSubmit s o).afterResponse (submitPending s o)

/-! ## Resolved text, copy, download, display -/

/-- Line 70: `textToCopy`. -/
def textToCopy (s : AppState) : JSVal :=
  if s.includeTimestamps && s.timestampedTranscript.truthy then s.timestampedTranscript
  else s.transcript

/-- Line 80: `textToDownload`. -/
def textToDownload (s : AppState) : JSVal :=
  if s.includeTimestamps && s.timestampedTranscript.truthy then s.timestampedTranscript
  else s.transcript

/-- Lines 262 and 331: the child of the transcript `pre` element; `none` when
the transcript block is not rendered. -/
def transcriptDisplay (s : AppState) : Option JSVal :=
  if s.transcript.truthy then
    some (if s.includeTimestamps && s.timestampedTranscript.truthy then s.timestampedTranscript
          else s.transcript)
  else none

/-- One run of `copyToClipboard`: the argument of `writeText`, the setter
calls made once the write resolved, and the `setTimeout` calls (delay in
milliseconds, callback). -/
structure CopyRun where
  writeText : JSVal
  updates : List Update
  timers : List (Nat × List Update)
  deriving DecidableEq

/-- The handler `copyToClipboard` (lines 68-77); `written` tells whether the
clipboard write resolved. -/
def copyToClipboard (s : AppState) (written : Bool) : CopyRun :=
  if written then
    { writeText := textToCopy s,
      updates := [.setCopySuccess true],
      timers := [(2000, [.setCopySuccess false])] }
  else
    { writeText := textToCopy s, updates := [], timers := [] }

/-- The file handed to the browser by `downloadTranscript`: the parts given
to `Blob`, the text they make (each part converted by ToString), the MIME
type and the name. -/
structure Download where
  blobParts : List JSVal
  content : String
  mimeType : String
  fileName : String
  deriving DecidableEq

/-- Line 87: `fileSuffix`. -/
def fileSuffix (s : AppState) : String :=
  if s.includeTimestamps && s.timestampedTranscript.truthy then "with-timestamps" else "plain"

/-- The expression `videoInfo?.videoId` of line 88. -/
def storedVideoId (s : AppState) : JSVal :=
  match s.videoInfo with
  | none => .undefined
  | some info => info.videoId

/-- Line 88: `fileName`; `none` when the conversion of the id in the
template literal throws. -/
def fileName (s : AppState) : Option String :=
  match ((storedVideoId s).or (.str "transcript")).toStr with
  | some id => some ("youtube-transcript-" ++ id ++ "-" ++ fileSuffix s ++ ".txt")
  | none => none

/-- The handler `downloadTranscript` (lines 79-97): the file it emits, `none`
when it emits none, because it returns at the guard of line 81 or because
`new Blob` (line 85) or the template literal (line 88) throws. -/
def downloadTranscript (s : AppState) : Option Download :=
  if !(textToDownload s).truthy then none
  else
    match (textToDownload s).toStr, fileName s with
    | some content, some name =>
      some {
        blobParts := [textToDownload s]
        content := content
        mimeType := "text/plain;charset=utf-8"
        fileName := name }
    | _, _ => none

/-- Line 71: the text a resolved `writeText` puts on the clipboard, its
argument converted by ToString; `none` when the conversion throws, in which
case the write is rejected. -/
def clipboardText (s : AppState) : Option String :=
  (textToCopy s).toStr

/-- The text shown in the transcript `pre` element; `none` when the block is
not rendered or rendering throws. -/
def displayedText (s : AppState) : Option String :=
  match transcriptDisplay s with
  | none => none
  | some child => child.childText

/-- Lines 262 and 287-289: the copy button, whose `onClick` is the only call
site of `copyToClipboard`, is inside the block rendered under
`transcript &&`. -/
def copyButtonRendered (s : AppState) : Bool :=
  s.transcript.truthy

/-- Line 273: the click handler of the timestamp button. -/
def toggleTimestamps (s : AppState) : List Update :=
  [.setIncludeTimestamps (!s.includeTimestamps)]

/-! ## The view selector as the specification words it -/

/-- The two display modes of the specification; the code stores the mode as
the flag `includeTimestamps`. -/
inductive DisplayMode where
  | plain
  | timestamped
  deriving DecidableEq

/-- The specification's view selector, in its words: if the mode is
Timestamped and the timestamped text is present, return it; otherwise return
the plain text. -/
def specResolve (plainText : JSVal) (timestampedText : Option JSVal) (mode : DisplayMode) :
    JSVal :=
  match mode, timestampedText with
  | .timestamped, some t => t
  | _, _ => plainText

/-- The display mode a state is in. -/
def AppState.mode (s : AppState) : DisplayMode :=
  if s.includeTimestamps then .timestamped else .plain

/-- The timestamped text of a state, absent when the stored value is falsy
(line 52 stores the empty string for a body without one). -/
def AppState.timestampedText (s : AppState) : Option JSVal :=
  if s.timestampedTranscript.truthy then some s.timestampedTranscript else none

/-! ## Concrete states and bodies used below -/

/-- The reference of the specification's scenarios. -/
def scenarioUrl : String := "https://youtu.be/abc123"

/-- The initial state after the user typed the reference. -/
def typedState : AppState :=
  (Update.setYoutubeUrl scenarioUrl).apply AppState.initial

/-- The body `{transcript: "Hello world", video_id: "abc123"}`. -/
def plainBody : JSVal :=
  .obj (.cons "transcript" (.str "Hello world") (.cons "video_id" (.str "abc123") .nil))

/-- A body that also carries a timestamped transcript. -/
def timestampedBody : JSVal :=
  .obj (.cons "transcript" (.str "Hello world")
    (.cons "timestamped_transcript" (.str "[00:00] Hello world")
      (.cons "video_id" (.str "abc123") .nil)))

/-- A body whose `error` field is the empty string. -/
def emptyErrorBody : JSVal :=
  .obj (.cons "error" (.str "") (.cons "transcript" (.str "Hello world") .nil))

/-- A body whose two transcripts are the same text. -/
def sameTextBody : JSVal :=
  .obj (.cons "transcript" (.str "Hello world")
    (.cons "timestamped_transcript" (.str "Hello world")
      (.cons "video_id" (.str "abc123") .nil)))

/-- A body signalling a service error next to transcript data. -/
def serviceErrorBody : JSVal :=
  .obj (.cons "error" (.str "Transcripts disabled for this video")
    (.cons "transcript" (.str "Hello world")
      (.cons "timestamped_transcript" (.str "[00:00] Hello world") .nil)))

/-- The state left by a successful submission that carried timestamped text. -/
def stateAfterTimestamped : AppState :=
  submitFinal typedState (.response 200 (.json timestampedBody))

/-- The same state after one click on the timestamp button. -/
def stateTimestampsShown : AppState :=
  applyAll (toggleTimestamps stateAfterTimestamped) stateAfterTimestamped

/-- A body whose `transcript` is the boolean `true`. -/
def booleanTranscriptBody : JSVal :=
  .obj (.cons "transcript" (.bool true) .nil)

/-- The body `{transcript: "Hello world", video_id: {toString: 1}}`. -/
def objectIdBody : JSVal :=
  .obj (.cons "transcript" (.str "Hello world")
    (.cons "video_id" (.obj (.cons "toString" (.num "1") .nil)) .nil))

/-! ## Submission trace, submit button -/

/-- Every state `handleSubmit` passes through, from the state it starts in to
the one it ends in, one per setter call. -/
def submitTrace (s : AppState) (o : Outcome) : List AppState :=
  statesAlong ((handleSubmit s o).beforeRequest ++ (handleSubmit s o).afterResponse) s

/-- Line 175: the `disabled` attribute of the submit button. -/
def submitDisabled (s : AppState) : Bool :=
  s.isLoading || s.youtubeUrl == ""

/-! ## Time and the `setTimeout` callbacks of `copyToClipboard` -/

/-- The component with a clock (milliseconds) and the timeouts registered and
not yet fired, each with the time it is due and its setter calls. -/
structure Timed where
  now : Nat
  app : AppState
  tasks : List (Nat × List Update)
  deriving DecidableEq

/-- Registration of a timeout: tasks are kept in firing order, by due time
and, for equal due times, by registration. Nothing is ever removed here: the
source has no `clearTimeout`. -/
def schedule (due : Nat) (callback : List Update) :
    List (Nat × List Update) → List (Nat × List Update)
  | [] => [(due, callback)]
  | task :: rest =>
    if task.1 ≤ due then task :: schedule due callback rest
    else (due, callback) :: task :: rest

/-- The callbacks due by time `t`, run in firing order. -/
def fireDue (t : Nat) : List (Nat × List Update) → AppState → AppState
  | [], s => s
  | task :: rest, s =>
    if task.1 ≤ t then fireDue t rest (applyAll task.2 s) else fireDue t rest s

/-- Time passes until `t`: the callbacks due by then fire and leave the list. -/
def Timed.advance (w : Timed) (t : Nat) : Timed where
  now := t
  app := fireDue t w.tasks w.app
  tasks := w.tasks.filter (fun task => !decide (task.1 ≤ t))

/-- A run of `copyToClipboard` whose clipboard write settles at the current
time: its setter calls are applied and its timeouts registered. -/
def Timed.copy (w : Timed) (written : Bool) : Timed where
  now := w.now
  app := applyAll (copyToClipboard w.app written).updates w.app
  tasks := (copyToClipboard w.app written).timers.foldl
    (fun tasks timer => schedule (w.now + timer.1) timer.2 tasks) w.tasks

/-- The component at time `t` with no timeout registered. -/
def Timed.start (t : Nat) (s : AppState) : Timed where
  now := t
  app := s
  tasks := []

/-! ## Lemmas -/

theorem truthy_str (t : String) : (JSVal.str t).truthy = true ↔ t ≠ "" := by
  simp [JSVal.truthy]

theorem field_eq_str_not_nullish (data : JSVal) (key e : String)
    (h : data.field key = .str e) : data.nullish = false := by
  cases data <;> simp_all [JSVal.field, JSVal.nullish]

theorem submitPending_of_reference (s : AppState) (o : Outcome) (h : s.youtubeUrl ≠ "") :
    submitPending s o =
      { s with isLoading := true, error := .str "", transcript := .str "",
               videoInfo := none, videoMetadata := .null, copySuccess := false } := by
  simp [submitPending, handleSubmit, h, pendingUpdates, applyAll, Update.apply]

theorem submitFinal_of_reference (s : AppState) (o : Outcome) (h : s.youtubeUrl ≠ "") :
    submitFinal s o = applyAll (completionUpdates o) (submitPending s o) := by
  simp [submitFinal, handleSubmit, h]

/-- The message set by the `catch` block is never empty. -/
theorem catch_message_ne_empty (message : String) :
    "Failed to fetch transcript: " ++ message ≠ "" := by
  intro h
  have hl := congrArg String.length h
  simp [String.length_append] at hl
  have : ("Failed to fetch transcript: " : String).length = 28 := by decide
  omega

theorem catch_message_truthy (message : String) :
    (JSVal.str ("Failed to fetch transcript: " ++ message)).truthy = true :=
  (truthy_str _).2 (catch_message_ne_empty message)

/-- A run whose `try` block throws ends with the `catch` message, the fields
cleared at submission still cleared and the loading flag reset. -/
theorem submitFinal_thrown (s : AppState) (o : Outcome) (message : String)
    (h : s.youtubeUrl ≠ "") (ht : tryBlock o = .error message) :
    submitFinal s o =
      { s with isLoading := false, error := .str ("Failed to fetch transcript: " ++ message),
               transcript := .str "", videoInfo := none, videoMetadata := .null,
               copySuccess := false } := by
  rw [submitFinal_of_reference s o h, submitPending_of_reference s o h]
  simp [completionUpdates, ht, catchUpdates, finallyUpdates, applyAll, Update.apply]

/-- A 2xx body with a truthy `error` ends with that value as the message. -/
theorem submitFinal_serviceError (s : AppState) (status : Nat) (data : JSVal)
    (h : s.youtubeUrl ≠ "") (hs : statusOk status = true) (hd : data.nullish = false)
    (he : (data.field "error").truthy = true) :
    submitFinal s (.response status (.json data)) =
      { s with isLoading := false, error := data.field "error",
               transcript := .str "", videoInfo := none, videoMetadata := .null,
               copySuccess := false } := by
  rw [submitFinal_of_reference s _ h, submitPending_of_reference s _ h]
  simp [completionUpdates, tryBlock, hs, hd, he, finallyUpdates, applyAll, Update.apply]

/-- A 2xx body without a truthy `error` is stored field by field. -/
theorem submitFinal_stored (s : AppState) (status : Nat) (data : JSVal)
    (h : s.youtubeUrl ≠ "") (hs : statusOk status = true) (hd : data.nullish = false)
    (he : (data.field "error").truthy = false) :
    submitFinal s (.response status (.json data)) =
      { s with isLoading := false, error := .str "",
               transcript := data.field "transcript",
               timestampedTranscript := (data.field "timestamped_transcript").or (.str ""),
               videoInfo := some {
                 videoId := data.field "video_id"
                 language := data.field "language"
                 languageCode := data.field "language_code"
                 isGenerated := data.field "is_generated" },
               videoMetadata := (data.field "video_metadata").or .null,
               copySuccess := false } := by
  rw [submitFinal_of_reference s _ h, submitPending_of_reference s _ h]
  simp [completionUpdates, tryBlock, hs, hd, he, storeUpdates, finallyUpdates, applyAll,
    Update.apply]

/-- The two file-name endings never coincide. -/
theorem plain_ending_ne_timestamps_ending (a b : String) :
    a ++ "-plain.txt" ≠ b ++ "-with-timestamps.txt" := by
  intro h
  have h5 := congrArg (fun x : String => x.data.reverse.take 5) h
  simp [String.data_append] at h5

/-! ### Traces -/

theorem applyAll_append (us vs : List Update) (s : AppState) :
    applyAll (us ++ vs) s = applyAll vs (applyAll us s) := by
  simp [applyAll, List.foldl_append]

theorem statesAlong_concat (us : List Update) (u : Update) (s : AppState) :
    statesAlong (us ++ [u]) s = statesAlong us s ++ [u.apply (applyAll us s)] := by
  induction us generalizing s with
  | nil => simp [statesAlong, applyAll]
  | cons v vs ih => simp [statesAlong, ih, applyAll]

theorem applyAll_mem_statesAlong (us : List Update) (s : AppState) :
    applyAll us s ∈ statesAlong us s := by
  induction us generalizing s with
  | nil => simp [statesAlong, applyAll]
  | cons v vs ih =>
    simp only [statesAlong, List.mem_cons]
    exact Or.inr (ih (v.apply s))

/-- A quantity no setter call of a list changes is the same in every state
along the list. -/
theorem statesAlong_preserves {α : Type} (f : AppState → α) (us : List Update)
    (h : ∀ u ∈ us, ∀ s : AppState, f (u.apply s) = f s) (s : AppState) :
    ∀ st ∈ statesAlong us s, f st = f s := by
  induction us generalizing s with
  | nil =>
    intro st hst
    simp [statesAlong] at hst
    rw [hst]
  | cons v vs ih =>
    intro st hst
    simp only [statesAlong, List.mem_cons] at hst
    rcases hst with hst | hst
    · rw [hst]
    · rw [ih (fun u hu => h u (List.mem_cons_of_mem _ hu)) (v.apply s) st hst]
      exact h v (List.mem_cons_self _ _) s

/-- The setter calls of the `try` and `catch` blocks: the completion without
its `finally`. -/
theorem completionUpdates_eq (o : Outcome) :
    ∃ body : List Update, completionUpdates o = body ++ [.setIsLoading false] ∧
      ∀ u ∈ body, ∀ s : AppState,
        (u.apply s).isLoading = s.isLoading ∧
        (u.apply s).includeTimestamps = s.includeTimestamps ∧
        (u.apply s).youtubeUrl = s.youtubeUrl := by
  refine ⟨_, rfl, ?_⟩
  intro u hu s
  cases ht : tryBlock o with
  | error message =>
    simp only [ht, catchUpdates, List.mem_singleton] at hu
    subst hu
    exact ⟨rfl, rfl, rfl⟩
  | ok us =>
    simp only [ht] at hu
    cases o with
    | connectionError message => simp [tryBlock] at ht
    | response status body =>
      cases body with
      | unparsable message =>
        simp only [tryBlock] at ht
        split at ht <;> simp at ht
      | json data =>
        simp only [tryBlock] at ht
        split at ht
        · simp at ht
        · split at ht
          · simp at ht
          · split at ht
            · simp only [Except.ok.injEq] at ht
              subst ht
              simp only [List.mem_singleton] at hu
              subst hu
              exact ⟨rfl, rfl, rfl⟩
            · simp only [Except.ok.injEq] at ht
              subst ht
              simp only [storeUpdates, List.mem_cons, List.mem_singleton, List.not_mem_nil,
                or_false] at hu
              rcases hu with hu | hu | hu | hu <;> subst hu <;> exact ⟨rfl, rfl, rfl⟩

theorem statesAlong_append_mem (us vs : List Update) (s st : AppState)
    (h : st ∈ statesAlong vs (applyAll us s)) : st ∈ statesAlong (us ++ vs) s := by
  induction us generalizing s with
  | nil => simpa [applyAll] using h
  | cons v rest ih =>
    simp only [List.cons_append, statesAlong, List.mem_cons]
    exact Or.inr (ih (v.apply s) (by simpa [applyAll] using h))

theorem statesAlong_head_mem (us : List Update) (s : AppState) : s ∈ statesAlong us s := by
  cases us <;> simp [statesAlong]

theorem get_of_has_eq_false : ∀ (fields : JSFields) (key : String),
    fields.has key = false → fields.get key = .undefined
  | .nil, _, _ => rfl
  | .cons k v rest, key, h => by
    simp only [JSFields.has, Bool.or_eq_false_iff, decide_eq_false_iff_not] at h
    simp [JSFields.get, h.1, get_of_has_eq_false rest key h.2]

/-- A body without an `error` property has a falsy `data.error`. -/
theorem field_falsy_of_hasField_eq_false (data : JSVal) (key : String)
    (h : data.hasField key = false) : (data.field key).truthy = false := by
  cases data with
  | obj fields =>
    simp only [JSVal.hasField] at h
    simp [JSVal.field, get_of_has_eq_false fields key h, JSVal.truthy]
  | _ => simp [JSVal.field, JSVal.truthy]

/-! ### Copy timeouts -/

/-- One resolved copy at time `t`, nothing registered before. -/
theorem copy_once (s : AppState) (t : Nat) :
    (Timed.start t s).copy true
      = { now := t, app := { s with copySuccess := true },
          tasks := [(t + 2000, [.setCopySuccess false])] } := by
  simp [Timed.start, Timed.copy, copyToClipboard, schedule, applyAll, Update.apply]

/-- A second resolved copy at time `u`, before the first timeout is due. -/
theorem copy_twice (s : AppState) (t u : Nat) (h1 : t < u) (h2 : u < t + 2000) :
    (((Timed.start t s).copy true).advance u).copy true
      = { now := u, app := { s with copySuccess := true },
          tasks := [(t + 2000, [.setCopySuccess false]), (u + 2000, [.setCopySuccess false])] } := by
  have h3 : ¬ (t + 2000 ≤ u) := by omega
  have h4 : t + 2000 ≤ u + 2000 := by omega
  rw [copy_once]
  simp [Timed.copy, Timed.advance, copyToClipboard, schedule, fireDue, applyAll, Update.apply,
    h3, h4]

/-! ### Resolved text and file name -/

/-- The expression of line 70 is the specification's resolve. -/
theorem textToCopy_eq_specResolve (s : AppState) :
    textToCopy s = specResolve s.transcript s.timestampedText s.mode := by
  cases hi : s.includeTimestamps <;> cases ht : s.timestampedTranscript.truthy <;>
    simp [textToCopy, specResolve, AppState.timestampedText, AppState.mode, hi, ht]

/-- The expression of line 80 is the specification's resolve. -/
theorem textToDownload_eq_specResolve (s : AppState) :
    textToDownload s = specResolve s.transcript s.timestampedText s.mode := by
  cases hi : s.includeTimestamps <;> cases ht : s.timestampedTranscript.truthy <;>
    simp [textToDownload, specResolve, AppState.timestampedText, AppState.mode, hi, ht]

/-- The child of lines 262 and 331 is the specification's resolve, present
exactly when the plain transcript is truthy. -/
theorem transcriptDisplay_eq_specResolve (s : AppState) :
    transcriptDisplay s
      = if s.transcript.truthy = true
        then some (specResolve s.transcript s.timestampedText s.mode) else none := by
  cases hp : s.transcript.truthy <;> cases hi : s.includeTimestamps <;>
    cases ht : s.timestampedTranscript.truthy <;>
    simp [transcriptDisplay, specResolve, AppState.timestampedText, AppState.mode, hp, hi, ht]

/-- The file name, given the text of the id. -/
theorem fileName_of_id (s : AppState) (idText : String)
    (h : ((storedVideoId s).or (.str "transcript")).toStr = some idText) :
    fileName s = some ("youtube-transcript-" ++ idText ++ "-" ++ fileSuffix s ++ ".txt") := by
  simp [fileName, h]

/-- A file name that was built has the shape of line 88. -/
theorem fileName_some (s : AppState) (name : String) (h : fileName s = some name) :
    ∃ idText : String, ((storedVideoId s).or (.str "transcript")).toStr = some idText ∧
      name = "youtube-transcript-" ++ idText ++ "-" ++ fileSuffix s ++ ".txt" := by
  unfold fileName at h
  split at h
  · rename_i id hid
    exact ⟨id, hid, by simpa using h.symm⟩
  · simp at h

/-- The handler emits a file only under the name of line 88. -/
theorem downloadTranscript_some (s : AppState) (d : Download)
    (h : downloadTranscript s = some d) :
    (textToDownload s).truthy = true ∧ fileName s = some d.fileName ∧
      (textToDownload s).toStr = some d.content ∧ d.blobParts = [textToDownload s] ∧
      d.mimeType = "text/plain;charset=utf-8" := by
  unfold downloadTranscript at h
  split at h
  · simp at h
  · rename_i hg
    split at h
    · rename_i content name hc hn
      simp only [Option.some.injEq] at h
      subst h
      exact ⟨by simpa using hg, hn, hc, rfl, rfl⟩
    · simp at h

/-- The handler emits the file whenever the guard passes and both
conversions succeed. -/
theorem downloadTranscript_of_converted (s : AppState) (content name : String)
    (hg : (textToDownload s).truthy = true) (hc : (textToDownload s).toStr = some content)
    (hn : fileName s = some name) :
    downloadTranscript s
      = some { blobParts := [textToDownload s], content := content,
               mimeType := "text/plain;charset=utf-8", fileName := name } := by
  simp [downloadTranscript, hg, hc, hn]

/-- A name built in the timestamped branch ends in `-with-timestamps.txt`. -/
theorem name_timestamped_ending (idText : String) :
    "youtube-transcript-" ++ idText ++ "-" ++ "with-timestamps" ++ ".txt"
      = "youtube-transcript-" ++ idText ++ "-with-timestamps.txt" := by
  rw [String.append_assoc, String.append_assoc]
  rfl

/-- A name built outside the timestamped branch ends in `-plain.txt`. -/
theorem name_plain_ending (idText : String) :
    "youtube-transcript-" ++ idText ++ "-" ++ "plain" ++ ".txt"
      = "youtube-transcript-" ++ idText ++ "-plain.txt" := by
  rw [String.append_assoc, String.append_assoc]
  rfl

theorem fileSuffix_timestamped (s : AppState)
    (hb : s.includeTimestamps = true ∧ s.timestampedTranscript.truthy = true) :
    fileSuffix s = "with-timestamps" := by
  simp [fileSuffix, hb.1, hb.2]

theorem fileSuffix_plain (s : AppState)
    (hb : ¬ (s.includeTimestamps = true ∧ s.timestampedTranscript.truthy = true)) :
    fileSuffix s = "plain" := by
  simp only [fileSuffix, Bool.and_eq_true, hb, if_false]

/-! ## Claims -/

/-- C1, as stated, fails: the body `{error: "", transcript: "Hello world"}`
has an `error` field, yet the run ends with an empty error message and the
transcript stored; and the body `null` has no `error` field, yet the run ends
with an error message and nothing stored. -/
theorem handleSubmit_error_field_presence_not_decisive :
    emptyErrorBody.hasField "error" = true ∧
    (submitFinal typedState (.response 200 (.json emptyErrorBody))).error = .str "" ∧
    (submitFinal typedState (.response 200 (.json emptyErrorBody))).transcript
      = .str "Hello world" ∧
    (submitFinal typedState (.response 200 (.json emptyErrorBody))).videoInfo ≠ none ∧
    JSVal.null.hasField "error" = false ∧
    (submitFinal typedState (.response 200 (.json .null))).error
      = .str ("Failed to fetch transcript: " ++ nullReadMessage) ∧
    (submitFinal typedState (.response 200 (.json .null))).transcript = .str "" ∧
    (submitFinal typedState (.response 200 (.json .null))).videoInfo = none := by
  decide

/-- C1, amended: for every prior state with a non-empty reference and every
2xx response whose body parsed to `data`, the run ends with an empty error
message and the result populated from the body if and only if `data` is not
null and its `error` field is falsy (absent, empty string, null, false, 0).
Otherwise it ends with a truthy error message (the `error` field itself when
the body is not null), the plain transcript empty and video info and
metadata null. In both cases the loading flag is reset. -/
theorem handleSubmit_succeeds_iff_error_falsy (s : AppState) (status : Nat) (data : JSVal)
    (hu : s.youtubeUrl ≠ "") (hs : statusOk status = true) :
    (((submitFinal s (.response status (.json data))).error = .str "" ∧
      (submitFinal s (.response status (.json data))).transcript = data.field "transcript" ∧
      (submitFinal s (.response status (.json data))).timestampedTranscript
        = (data.field "timestamped_transcript").or (.str "") ∧
      (submitFinal s (.response status (.json data))).videoInfo
        = some { videoId := data.field "video_id", language := data.field "language",
                 languageCode := data.field "language_code",
                 isGenerated := data.field "is_generated" } ∧
      (submitFinal s (.response status (.json data))).videoMetadata
        = (data.field "video_metadata").or .null)
      ↔ (data.nullish = false ∧ (data.field "error").truthy = false)) ∧
    (¬ (data.nullish = false ∧ (data.field "error").truthy = false) →
      (submitFinal s (.response status (.json data))).error.truthy = true ∧
      (submitFinal s (.response status (.json data))).transcript = .str "" ∧
      (submitFinal s (.response status (.json data))).videoInfo = none ∧
      (submitFinal s (.response status (.json data))).videoMetadata = .null) ∧
    (data.nullish = false → (data.field "error").truthy = true →
      (submitFinal s (.response status (.json data))).error = data.field "error") ∧
    (submitFinal s (.response status (.json data))).isLoading = false := by
  by_cases hd : data.nullish = false
  · by_cases he : (data.field "error").truthy = false
    · rw [submitFinal_stored s status data hu hs hd he]
      simp [hd, he]
    · have he' : (data.field "error").truthy = true := by simpa using he
      rw [submitFinal_serviceError s status data hu hs hd he']
      simp [hd, he']
  · have hd' : data.nullish = true := by simpa using hd
    have ht : tryBlock (.response status (.json data)) = .error nullReadMessage := by
      simp [tryBlock, hs, hd']
    rw [submitFinal_thrown s _ _ hu ht]
    simp [hd', catch_message_truthy]

/-- Witness for C1 (amended): the scenario body, with status 200. -/
theorem handleSubmit_succeeds_iff_error_falsy_witness :
    typedState.youtubeUrl ≠ "" ∧ statusOk 200 = true ∧
    (submitFinal typedState (.response 200 (.json plainBody))).error = .str "" ∧
    (submitFinal typedState (.response 200 (.json plainBody))).transcript
      = plainBody.field "transcript" :=
  ⟨by decide, by decide,
   ((handleSubmit_succeeds_iff_error_falsy typedState 200 plainBody (by decide)
      (by decide)).1.2 ⟨by decide, by decide⟩).1,
   ((handleSubmit_succeeds_iff_error_falsy typedState 200 plainBody (by decide)
      (by decide)).1.2 ⟨by decide, by decide⟩).2.1⟩

/-- C2: with an empty reference `handleSubmit` issues no request, whatever
the transport would answer, and its only effect on the state is the
validation message, which is not empty. -/
theorem handleSubmit_empty_reference (s : AppState) (o : Outcome) (h : s.youtubeUrl = "") :
    (handleSubmit s o).requests = [] ∧
    submitFinal s o = { s with error := .str "Please enter a YouTube URL" } ∧
    (submitFinal s o).error.truthy = true ∧
    (submitFinal s o).transcript = s.transcript ∧
    (submitFinal s o).timestampedTranscript = s.timestampedTranscript ∧
    (submitFinal s o).videoInfo = s.videoInfo ∧
    (submitFinal s o).videoMetadata = s.videoMetadata ∧
    (submitFinal s o).isLoading = s.isLoading ∧
    (submitFinal s o).copySuccess = s.copySuccess ∧
    (submitFinal s o).includeTimestamps = s.includeTimestamps ∧
    (submitFinal s o).youtubeUrl = s.youtubeUrl := by
  simp [submitFinal, submitPending, handleSubmit, h, validationUpdates, applyAll, Update.apply,
    JSVal.truthy]

/-- Witness for C2: the initial state, whose reference is empty. -/
theorem handleSubmit_empty_reference_witness :
    AppState.initial.youtubeUrl = "" ∧
    (handleSubmit AppState.initial (.response 200 (.json plainBody))).requests = [] :=
  ⟨rfl, (handleSubmit_empty_reference AppState.initial _ rfl).1⟩

/-- C3: in every state, the text resolved for copying, for downloading and
for display is the timestamped text when the mode is Timestamped and the
timestamped text is present (truthy; for a string: not empty), and the plain
text in every other case. The selection is a read of the state: the download
handler makes no setter call and the copy handler leaves the mode as it is. -/
theorem resolved_text_policy (s : AppState) :
    (s.includeTimestamps = true → s.timestampedTranscript.truthy = true →
      textToCopy s = s.timestampedTranscript ∧
      textToDownload s = s.timestampedTranscript ∧
      (s.transcript.truthy = true → transcriptDisplay s = some s.timestampedTranscript)) ∧
    (s.includeTimestamps = false ∨ s.timestampedTranscript.truthy = false →
      textToCopy s = s.transcript ∧
      textToDownload s = s.transcript ∧
      (s.transcript.truthy = true → transcriptDisplay s = some s.transcript)) ∧
    (∀ t : String, s.timestampedTranscript = .str t →
      (s.timestampedTranscript.truthy = true ↔ t ≠ "")) ∧
    (∀ written : Bool,
      (applyAll (copyToClipboard s written).updates s).includeTimestamps
        = s.includeTimestamps) := by
  refine ⟨?_, ?_, ?_, ?_⟩
  · intro hi ht
    simp [textToCopy, textToDownload, transcriptDisplay, hi, ht]
  · rintro (hi | ht) <;>
      simp [textToCopy, textToDownload, transcriptDisplay, *]
  · intro t ht
    rw [ht]
    exact truthy_str t
  · intro written
    cases written <;> simp [copyToClipboard, applyAll, Update.apply]

/-- Witness for C3: in Timestamped mode with timestamped text stored the
timestamped text is resolved; in the same mode after a body without one, the
plain text is. -/
theorem resolved_text_policy_witness :
    textToDownload stateTimestampsShown = .str "[00:00] Hello world" ∧
    textToDownload
        (submitFinal stateTimestampsShown (.response 200 (.json plainBody)))
      = .str "Hello world" :=
  ⟨((resolved_text_policy stateTimestampsShown).1 (by decide) (by decide)).2.1,
   ((resolved_text_policy
      (submitFinal stateTimestampsShown (.response 200 (.json plainBody)))).2.1
        (Or.inr (by decide))).2.1⟩

/-- C4, evaluated at the failing input: resubmitting from the state left by
a successful submission that carried timestamped text, the state at the
`await` has the plain text, video info, metadata, error and copy indicator
cleared, but still holds the earlier timestamped text. -/
theorem handleSubmit_pending_keeps_timestamped_text :
    stateAfterTimestamped.timestampedTranscript = .str "[00:00] Hello world" ∧
    (submitPending stateAfterTimestamped (.connectionError "Failed to fetch")).isLoading
      = true ∧
    (submitPending stateAfterTimestamped (.connectionError "Failed to fetch")).transcript
      = .str "" ∧
    (submitPending stateAfterTimestamped (.connectionError "Failed to fetch")).videoInfo
      = none ∧
    (submitPending stateAfterTimestamped (.connectionError "Failed to fetch")).videoMetadata
      = .null ∧
    (submitPending stateAfterTimestamped (.connectionError "Failed to fetch")).error
      = .str "" ∧
    (submitPending stateAfterTimestamped (.connectionError "Failed to fetch")).copySuccess
      = false ∧
    (submitPending stateAfterTimestamped
        (.connectionError "Failed to fetch")).timestampedTranscript
      = .str "[00:00] Hello world" := by
  decide

/-- C5, evaluated at the failing input: in Timestamped mode, after a
successful submission that carried timestamped text, a submission that fails
leaves an error message and an empty plain text, but the text resolved for
download is the earlier timestamped text and `downloadTranscript` emits a
file holding it. The transcript block, and with it the download button, is
not rendered in that state. -/
theorem handleSubmit_failed_keeps_timestamped_text :
    (submitFinal stateTimestampsShown (.connectionError "Failed to fetch")).error
      = .str "Failed to fetch transcript: Failed to fetch" ∧
    (submitFinal stateTimestampsShown (.connectionError "Failed to fetch")).transcript
      = .str "" ∧
    textToDownload (submitFinal stateTimestampsShown (.connectionError "Failed to fetch"))
      = .str "[00:00] Hello world" ∧
    downloadTranscript (submitFinal stateTimestampsShown (.connectionError "Failed to fetch"))
      = some { blobParts := [.str "[00:00] Hello world"],
               content := "[00:00] Hello world",
               mimeType := "text/plain;charset=utf-8",
               fileName := "youtube-transcript-transcript-with-timestamps.txt" } ∧
    transcriptDisplay (submitFinal stateTimestampsShown (.connectionError "Failed to fetch"))
      = none := by
  decide

/-- The transport-failure paths: for every prior state with a non-empty
reference, a rejected `fetch` with message `m` ends with the error message
`Failed to fetch transcript: m`, and a response whose status `st` is outside
200-299 ends with `Failed to fetch transcript: HTTP error! status: st`, the
status in decimal, whatever the body. In both cases the message is not empty,
the loading flag is reset, the plain transcript, video info and metadata are
empty, no transcript is displayed, and the timestamped text is not written. -/
theorem transport_failure_final_state (s : AppState) (hu : s.youtubeUrl ≠ "") :
    (∀ m : String,
      submitFinal s (.connectionError m) =
        { s with isLoading := false, error := .str ("Failed to fetch transcript: " ++ m),
                 transcript := .str "", videoInfo := none, videoMetadata := .null,
                 copySuccess := false } ∧
      (submitFinal s (.connectionError m)).error.truthy = true ∧
      transcriptDisplay (submitFinal s (.connectionError m)) = none) ∧
    (∀ (st : Nat) (body : Body), statusOk st = false →
      submitFinal s (.response st body) =
        { s with isLoading := false,
                 error := .str ("Failed to fetch transcript: "
                                  ++ ("HTTP error! status: " ++ toString st)),
                 transcript := .str "", videoInfo := none, videoMetadata := .null,
                 copySuccess := false } ∧
      (∃ before after : String,
        (submitFinal s (.response st body)).error = .str (before ++ Nat.repr st ++ after)) ∧
      (submitFinal s (.response st body)).error.truthy = true ∧
      transcriptDisplay (submitFinal s (.response st body)) = none) := by
  constructor
  · intro m
    have ht : tryBlock (.connectionError m) = .error m := rfl
    rw [submitFinal_thrown s _ _ hu ht]
    exact ⟨rfl, catch_message_truthy m, by simp [transcriptDisplay, JSVal.truthy]⟩
  · intro st body hst
    have ht : tryBlock (.response st body)
        = .error ("HTTP error! status: " ++ toString st) := by
      simp [tryBlock, hst]
    rw [submitFinal_thrown s _ _ hu ht]
    refine ⟨rfl, ⟨"Failed to fetch transcript: HTTP error! status: ", "", ?_⟩,
      catch_message_truthy _, by simp [transcriptDisplay, JSVal.truthy]⟩
    simp [String.append_assoc]
    rfl

/-- C6, evaluated at the failing input: after a successful submission that
carried timestamped text, a resubmission answered with status 404 ends with
the message `Failed to fetch transcript: HTTP error! status: 404`, the
loading flag reset, the plain transcript empty and video info and metadata
null, yet the timestamped text of the earlier submission is still stored. -/
theorem handleSubmit_http_error_keeps_timestamped_text :
    (submitFinal stateAfterTimestamped (.response 404 (.unparsable "Unexpected token"))).error
      = .str "Failed to fetch transcript: HTTP error! status: 404" ∧
    (submitFinal stateAfterTimestamped
        (.response 404 (.unparsable "Unexpected token"))).isLoading = false ∧
    (submitFinal stateAfterTimestamped
        (.response 404 (.unparsable "Unexpected token"))).transcript = .str "" ∧
    (submitFinal stateAfterTimestamped
        (.response 404 (.unparsable "Unexpected token"))).videoInfo = none ∧
    (submitFinal stateAfterTimestamped
        (.response 404 (.unparsable "Unexpected token"))).videoMetadata = .null ∧
    (submitFinal stateAfterTimestamped
        (.response 404 (.unparsable "Unexpected token"))).timestampedTranscript
      = .str "[00:00] Hello world" := by
  decide

/-- C7: for every prior state with a non-empty reference and every 2xx body
whose `error` field is a non-empty string `e`, the final state is the prior
one with the error message exactly `e`, the loading flag and the copy
indicator reset, and the plain transcript, video info and metadata empty: it
depends on nothing else in the body, and the timestamped text is not
written. -/
theorem handleSubmit_service_error (s : AppState) (st : Nat) (data : JSVal) (e : String)
    (hu : s.youtubeUrl ≠ "") (hs : statusOk st = true)
    (he : data.field "error" = .str e) (hne : e ≠ "") :
    submitFinal s (.response st (.json data)) =
      { s with isLoading := false, error := .str e, transcript := .str "",
               videoInfo := none, videoMetadata := .null, copySuccess := false } ∧
    (submitFinal s (.response st (.json data))).error = .str e ∧
    (submitFinal s (.response st (.json data))).transcript = .str "" ∧
    (submitFinal s (.response st (.json data))).timestampedTranscript
      = s.timestampedTranscript ∧
    (submitFinal s (.response st (.json data))).videoInfo = none ∧
    (submitFinal s (.response st (.json data))).videoMetadata = .null := by
  have hd := field_eq_str_not_nullish data "error" e he
  have ht : (data.field "error").truthy = true := by
    rw [he]
    exact (truthy_str e).2 hne
  rw [submitFinal_serviceError s st data hu hs hd ht, he]
  simp

/-- Witness for C7: the service-error scenario, with transcript data next to
the `error` field. -/
theorem handleSubmit_service_error_witness :
    (submitFinal typedState (.response 200 (.json serviceErrorBody))).error
      = .str "Transcripts disabled for this video" ∧
    (submitFinal typedState (.response 200 (.json serviceErrorBody))).transcript = .str "" :=
  ⟨(handleSubmit_service_error typedState 200 serviceErrorBody
      "Transcripts disabled for this video" (by decide) (by decide) (by decide)
      (by decide)).2.1,
   (handleSubmit_service_error typedState 200 serviceErrorBody
      "Transcripts disabled for this video" (by decide) (by decide) (by decide)
      (by decide)).2.2.1⟩

/-- C8, as stated, fails: after the body `{transcript: true}` the resolved
value is the boolean `true`; the clipboard receives the text `true`, the
emitted file holds the text `true`, and the transcript display, which is
rendered, shows nothing. -/
theorem boolean_transcript_displayed_as_nothing :
    textToCopy (submitFinal typedState (.response 200 (.json booleanTranscriptBody)))
      = .bool true ∧
    clipboardText (submitFinal typedState (.response 200 (.json booleanTranscriptBody)))
      = some "true" ∧
    downloadTranscript (submitFinal typedState (.response 200 (.json booleanTranscriptBody)))
      = some { blobParts := [.bool true],
               content := "true",
               mimeType := "text/plain;charset=utf-8",
               fileName := "youtube-transcript-transcript-plain.txt" } ∧
    transcriptDisplay (submitFinal typedState (.response 200 (.json booleanTranscriptBody)))
      = some (.bool true) ∧
    displayedText (submitFinal typedState (.response 200 (.json booleanTranscriptBody)))
      = some "" := by
  decide

/-- C8, amended: in every state whose resolved text is a string `t`,
`copyToClipboard` hands `t` to the clipboard and the clipboard receives `t`;
the transcript display is rendered exactly when the plain transcript is
truthy and then shows `t`; and `downloadTranscript` emits no file when `t` is
empty or the name cannot be built, and otherwise emits one file whose single
part is `t`, whose content is `t` and whose type is
`text/plain;charset=utf-8`: the same string everywhere, nothing added or
removed. -/
theorem exports_and_display_share_string (s : AppState) (t : String)
    (ht : specResolve s.transcript s.timestampedText s.mode = .str t) :
    (copyToClipboard s true).writeText = .str t ∧
    (copyToClipboard s false).writeText = .str t ∧
    clipboardText s = some t ∧
    transcriptDisplay s = (if s.transcript.truthy = true then some (.str t) else none) ∧
    displayedText s = (if s.transcript.truthy = true then some t else none) ∧
    (t = "" → downloadTranscript s = none) ∧
    (t ≠ "" → fileName s = none → downloadTranscript s = none) ∧
    (∀ name : String, t ≠ "" → fileName s = some name →
      downloadTranscript s
        = some { blobParts := [.str t], content := t,
                 mimeType := "text/plain;charset=utf-8", fileName := name }) := by
  have hc : textToCopy s = .str t := by rw [textToCopy_eq_specResolve, ht]
  have hd : textToDownload s = .str t := by rw [textToDownload_eq_specResolve, ht]
  have hv : transcriptDisplay s
      = (if s.transcript.truthy = true then some (.str t) else none) := by
    rw [transcriptDisplay_eq_specResolve, ht]
  refine ⟨?_, ?_, ?_, hv, ?_, ?_, ?_, ?_⟩
  · simp [copyToClipboard, hc]
  · simp [copyToClipboard, hc]
  · simp [clipboardText, hc, JSVal.toStr]
  · rw [displayedText, hv]
    cases s.transcript.truthy <;> simp [JSVal.childText]
  · intro he
    subst he
    simp [downloadTranscript, hd, JSVal.truthy]
  · intro _ hn
    simp [downloadTranscript, hd, hn]
  · intro name hne hn
    have hg : (textToDownload s).truthy = true := by
      rw [hd]
      exact (truthy_str t).2 hne
    have := downloadTranscript_of_converted s t name hg (by rw [hd]; rfl) hn
    rw [hd] at this
    exact this

/-- Witness for C8 (amended): in Timestamped mode after the timestamped
body, clipboard, display and file all hold the timestamped text. -/
theorem exports_and_display_share_string_witness :
    clipboardText stateTimestampsShown = some "[00:00] Hello world" ∧
    displayedText stateTimestampsShown
      = (if stateTimestampsShown.transcript.truthy = true
          then some "[00:00] Hello world" else none) ∧
    stateTimestampsShown.transcript.truthy = true ∧
    downloadTranscript stateTimestampsShown
      = some { blobParts := [.str "[00:00] Hello world"],
               content := "[00:00] Hello world",
               mimeType := "text/plain;charset=utf-8",
               fileName := "youtube-transcript-abc123-with-timestamps.txt" } :=
  ⟨(exports_and_display_share_string stateTimestampsShown "[00:00] Hello world"
      (by decide)).2.2.1,
   (exports_and_display_share_string stateTimestampsShown "[00:00] Hello world"
      (by decide)).2.2.2.2.1,
   by decide,
   (exports_and_display_share_string stateTimestampsShown "[00:00] Hello world"
      (by decide)).2.2.2.2.2.2.2 "youtube-transcript-abc123-with-timestamps.txt"
      (by decide) (by decide)⟩

/-- C9, as stated, fails: in Plain mode, after a body whose timestamped
transcript is the same text as its plain transcript, the resolved text is
not empty and equals the timestamped text, yet the file name ends in
`plain`. -/
theorem download_suffix_plain_despite_equal_text :
    (submitFinal typedState (.response 200 (.json sameTextBody))).includeTimestamps = false ∧
    textToDownload (submitFinal typedState (.response 200 (.json sameTextBody)))
      = .str "Hello world" ∧
    textToDownload (submitFinal typedState (.response 200 (.json sameTextBody)))
      = (submitFinal typedState (.response 200 (.json sameTextBody))).timestampedTranscript ∧
    downloadTranscript (submitFinal typedState (.response 200 (.json sameTextBody)))
      = some { blobParts := [.str "Hello world"],
               content := "Hello world",
               mimeType := "text/plain;charset=utf-8",
               fileName := "youtube-transcript-abc123-plain.txt" } := by
  decide

/-- C9, amended: in every state `downloadTranscript` emits no file when the
resolved text is empty (falsy); when it is not, it emits one as soon as the
resolved text and the id of the name convert to strings (always, for a
string text and a string or absent id), and the name of an emitted file ends
in `-with-timestamps.txt` exactly when the mode is Timestamped and the
timestamped text is present, in which case the resolved text is the
timestamped text, and in `-plain.txt` exactly when not. -/
theorem download_suffix_follows_branch (s : AppState) :
    ((textToDownload s).truthy = false → downloadTranscript s = none) ∧
    ((textToDownload s).truthy = true →
      (∀ content idText : String, (textToDownload s).toStr = some content →
        ((storedVideoId s).or (.str "transcript")).toStr = some idText →
        ∃ d : Download, downloadTranscript s = some d) ∧
      (∀ d : Download, downloadTranscript s = some d →
        ((∃ stem : String, d.fileName = stem ++ "-with-timestamps.txt") ↔
          (s.includeTimestamps = true ∧ s.timestampedTranscript.truthy = true)) ∧
        ((∃ stem : String, d.fileName = stem ++ "-plain.txt") ↔
          ¬ (s.includeTimestamps = true ∧ s.timestampedTranscript.truthy = true))) ∧
      (s.includeTimestamps = true ∧ s.timestampedTranscript.truthy = true →
        textToDownload s = s.timestampedTranscript)) ∧
    (∀ t : String, textToDownload s = .str t → t ≠ "" →
      (s.videoInfo = none ∨
        ∃ (info : VideoInfo) (v : String), s.videoInfo = some info ∧ info.videoId = .str v) →
      ∃ d : Download, downloadTranscript s = some d ∧ d.content = t) := by
  refine ⟨?_, ?_, ?_⟩
  · intro h
    simp [downloadTranscript, h]
  rotate_left
  · intro t ht hne hid
    have hg : (textToDownload s).truthy = true := by
      rw [ht]
      exact (truthy_str t).2 hne
    have hconv : ∃ idText : String,
        ((storedVideoId s).or (.str "transcript")).toStr = some idText := by
      rcases hid with hn | ⟨info, v, hi, hv⟩
      · exact ⟨"transcript", by simp [storedVideoId, hn, JSVal.or, JSVal.truthy, JSVal.toStr]⟩
      · by_cases hv0 : v = ""
        · exact ⟨"transcript",
            by simp [storedVideoId, hi, hv, hv0, JSVal.or, JSVal.truthy, JSVal.toStr]⟩
        · exact ⟨v, by simp [storedVideoId, hi, hv, hv0, JSVal.or, JSVal.truthy, JSVal.toStr]⟩
    obtain ⟨idText, hidText⟩ := hconv
    exact ⟨_, downloadTranscript_of_converted s t _ hg (by rw [ht]; rfl)
      (fileName_of_id s idText hidText), rfl⟩
  · intro h
    refine ⟨?_, ?_, ?_⟩
    · intro content idText hc hid
      exact ⟨_, downloadTranscript_of_converted s content _ h hc (fileName_of_id s idText hid)⟩
    · intro d hd
      obtain ⟨idText, _, hname⟩ := fileName_some s d.fileName (downloadTranscript_some s d hd).2.1
      by_cases hb : s.includeTimestamps = true ∧ s.timestampedTranscript.truthy = true
      · rw [fileSuffix_timestamped s hb, name_timestamped_ending] at hname
        simp only [hb, and_self, iff_true, not_true_eq_false, iff_false]
        refine ⟨⟨_, hname⟩, ?_⟩
        rintro ⟨stem, hstem⟩
        rw [hname] at hstem
        exact plain_ending_ne_timestamps_ending _ _ hstem.symm
      · rw [fileSuffix_plain s hb, name_plain_ending] at hname
        simp only [hb, iff_false, not_false_eq_true, iff_true]
        refine ⟨?_, ⟨_, hname⟩⟩
        rintro ⟨stem, hstem⟩
        rw [hname] at hstem
        exact plain_ending_ne_timestamps_ending _ _ hstem
    · rintro ⟨hi, ht⟩
      simp [textToDownload, hi, ht]

/-- Witness for C9 (amended): the state of the counterexample emits a file
whose name ends in `-plain.txt` and not in `-with-timestamps.txt`. -/
theorem download_suffix_follows_branch_witness :
    (∃ stem : String, "youtube-transcript-abc123-plain.txt" = stem ++ "-plain.txt") ↔
      ¬ ((submitFinal typedState (.response 200 (.json sameTextBody))).includeTimestamps
            = true ∧
         (submitFinal typedState
            (.response 200 (.json sameTextBody))).timestampedTranscript.truthy = true) :=
  (((download_suffix_follows_branch
      (submitFinal typedState (.response 200 (.json sameTextBody)))).2.1 (by decide)).2.1
    { blobParts := [.str "Hello world"], content := "Hello world",
      mimeType := "text/plain;charset=utf-8",
      fileName := "youtube-transcript-abc123-plain.txt" } (by decide)).2

/-- C10, as stated, fails: after the body
`{transcript: "Hello world", video_id: {toString: 1}}` the resolved text is
`Hello world`, not empty, but the stored video id is an object whose own
`toString` is not a function: the template literal of line 88 throws and
`downloadTranscript` emits no file. -/
theorem download_throws_on_unprintable_id :
    textToDownload (submitFinal typedState (.response 200 (.json objectIdBody)))
      = .str "Hello world" ∧
    (textToDownload (submitFinal typedState (.response 200 (.json objectIdBody)))).truthy
      = true ∧
    storedVideoId (submitFinal typedState (.response 200 (.json objectIdBody)))
      = .obj (.cons "toString" (.num "1") .nil) ∧
    fileName (submitFinal typedState (.response 200 (.json objectIdBody))) = none ∧
    downloadTranscript (submitFinal typedState (.response 200 (.json objectIdBody)))
      = none := by
  decide

/-- C10, amended: in every state whose resolved text is a non-empty string
`t`, `downloadTranscript` emits the file `youtube-transcript-` id `-` suffix
`.txt` holding `t`, where suffix is `with-timestamps` in the timestamped
branch of the resolve policy and `plain` otherwise, and id is the stored
video id when it is a non-empty string, and the literal `transcript` when no
video info is stored or its video id is falsy (undefined, empty). For any
other stored id the id is the text ToString gives it (a number prints as its
digits, `true` as `true`, an array as its elements joined by commas, an
object without its own `toString` as `[object Object]`), and when ToString throws (an object with its own
`toString` field) no file is emitted. For the reference of the scenario and
the body `{transcript: "Hello world", video_id: "abc123"}` in Plain mode the
file is `youtube-transcript-abc123-plain.txt`, holding `Hello world`. -/
theorem download_file_name :
    (∀ (s : AppState) (t v : String) (info : VideoInfo),
      textToDownload s = .str t → t ≠ "" →
      s.videoInfo = some info → info.videoId = .str v → v ≠ "" →
      downloadTranscript s
        = some { blobParts := [.str t], content := t,
                 mimeType := "text/plain;charset=utf-8",
                 fileName := "youtube-transcript-" ++ v ++ "-"
                   ++ (if s.includeTimestamps = true ∧ s.timestampedTranscript.truthy = true
                       then "with-timestamps" else "plain") ++ ".txt" }) ∧
    (∀ (s : AppState) (t : String),
      textToDownload s = .str t → t ≠ "" →
      (s.videoInfo = none ∨ ∃ info : VideoInfo, s.videoInfo = some info ∧
        info.videoId.truthy = false) →
      downloadTranscript s
        = some { blobParts := [.str t], content := t,
                 mimeType := "text/plain;charset=utf-8",
                 fileName := "youtube-transcript-" ++ "transcript" ++ "-"
                   ++ (if s.includeTimestamps = true ∧ s.timestampedTranscript.truthy = true
                       then "with-timestamps" else "plain") ++ ".txt" }) ∧
    (∀ (s : AppState) (t idText : String) (info : VideoInfo),
      textToDownload s = .str t → t ≠ "" →
      s.videoInfo = some info → info.videoId.truthy = true →
      info.videoId.toStr = some idText →
      downloadTranscript s
        = some { blobParts := [.str t], content := t,
                 mimeType := "text/plain;charset=utf-8",
                 fileName := "youtube-transcript-" ++ idText ++ "-"
                   ++ (if s.includeTimestamps = true ∧ s.timestampedTranscript.truthy = true
                       then "with-timestamps" else "plain") ++ ".txt" }) ∧
    (∀ (s : AppState) (info : VideoInfo),
      s.videoInfo = some info → info.videoId.truthy = true → info.videoId.toStr = none →
      downloadTranscript s = none) ∧
    (∀ s : AppState, s.includeTimestamps = true ∧ s.timestampedTranscript.truthy = true →
      textToDownload s = s.timestampedTranscript) ∧
    (∀ s : AppState, ¬ (s.includeTimestamps = true ∧ s.timestampedTranscript.truthy = true) →
      textToDownload s = s.transcript) ∧
    (∀ text : String, (JSVal.num text).toStr = some text) ∧
    (JSVal.bool true).toStr = some "true" ∧
    (∀ fields : JSFields, fields.has "toString" = false →
      (JSVal.obj fields).toStr = some "[object Object]") ∧
    (∀ fields : JSFields, fields.has "toString" = true → (JSVal.obj fields).toStr = none) ∧
    (JSVal.arr (.cons (.str "a") (.cons .null (.cons (.num "1") .nil)))).toStr
      = some "a,,1" ∧
    (submitFinal typedState (.response 200 (.json plainBody))).includeTimestamps = false ∧
    (submitFinal typedState (.response 200 (.json plainBody))).error = .str "" ∧
    downloadTranscript (submitFinal typedState (.response 200 (.json plainBody)))
      = some { blobParts := [.str "Hello world"],
               content := "Hello world",
               mimeType := "text/plain;charset=utf-8",
               fileName := "youtube-transcript-abc123-plain.txt" } := by
  have hsuffix : ∀ s : AppState,
      fileSuffix s = (if s.includeTimestamps = true ∧ s.timestampedTranscript.truthy = true
        then "with-timestamps" else "plain") := by
    intro s
    simp [fileSuffix]
  have hemit : ∀ (s : AppState) (t idText : String), textToDownload s = .str t → t ≠ "" →
      ((storedVideoId s).or (.str "transcript")).toStr = some idText →
      downloadTranscript s
        = some { blobParts := [.str t], content := t,
                 mimeType := "text/plain;charset=utf-8",
                 fileName := "youtube-transcript-" ++ idText ++ "-"
                   ++ (if s.includeTimestamps = true ∧ s.timestampedTranscript.truthy = true
                       then "with-timestamps" else "plain") ++ ".txt" } := by
    intro s t idText ht hne hid
    have hg : (textToDownload s).truthy = true := by
      rw [ht]
      exact (truthy_str t).2 hne
    have := downloadTranscript_of_converted s t _ hg (by rw [ht]; rfl) (fileName_of_id s idText hid)
    rw [ht, hsuffix s] at this
    exact this
  refine ⟨?_, ?_, ?_, ?_, ?_, ?_, ?_, rfl, ?_, ?_, by decide, by decide, by decide,
    by decide⟩
  · intro s t v info ht hne hi hv hvne
    apply hemit s t v ht hne
    have hvt : (JSVal.str v).truthy = true := (truthy_str v).2 hvne
    simp [storedVideoId, hi, hv, JSVal.or, hvt, JSVal.toStr]
  · intro s t ht hne hno
    apply hemit s t "transcript" ht hne
    rcases hno with hno | ⟨info, hi, hf⟩
    · simp [storedVideoId, hno, JSVal.or, JSVal.truthy, JSVal.toStr]
    · simp [storedVideoId, hi, JSVal.or, hf, JSVal.toStr]
  · intro s t idText info ht hne hi htr hid
    apply hemit s t idText ht hne
    simp [storedVideoId, hi, JSVal.or, htr, hid]
  · intro s info hi htr hid
    have hn : fileName s = none := by
      simp [fileName, storedVideoId, hi, JSVal.or, htr, hid]
    unfold downloadTranscript
    split
    · rfl
    · rw [hn]
      cases (textToDownload s).toStr <;> rfl
  · rintro s ⟨hi, ht⟩
    simp [textToDownload, hi, ht]
  · intro s hb
    simp only [textToDownload, Bool.and_eq_true, hb, if_false]
  · intro text
    rfl
  · intro fields hf
    simp [JSVal.toStr, hf]
  · intro fields hf
    simp [JSVal.toStr, hf]

/-- Witness for C10 (amended): the state left by the timestamped body, in
Timestamped mode, with the string id `abc123`. -/
theorem download_file_name_witness :
    downloadTranscript stateTimestampsShown
      = some { blobParts := [.str "[00:00] Hello world"],
               content := "[00:00] Hello world",
               mimeType := "text/plain;charset=utf-8",
               fileName := "youtube-transcript-" ++ "abc123" ++ "-"
                 ++ (if stateTimestampsShown.includeTimestamps = true ∧
                        stateTimestampsShown.timestampedTranscript.truthy = true
                     then "with-timestamps" else "plain") ++ ".txt" } :=
  download_file_name.1 stateTimestampsShown "[00:00] Hello world" "abc123"
    { videoId := .str "abc123", language := .undefined, languageCode := .undefined,
      isGenerated := .undefined }
    (by decide) (by decide) (by decide) rfl (by decide)

/-- C11, as stated, fails: in the initial state the resolved text is the
empty string, yet `copyToClipboard`, run there, hands it to the clipboard
and, the write resolved, sets the copy indicator (it was false) and registers
the 2000 ms timeout; `downloadTranscript`, in the same state, returns at its
guard. -/
theorem copyToClipboard_empty_text_not_guarded :
    textToCopy AppState.initial = .str "" ∧
    copyToClipboard AppState.initial true
      = { writeText := .str "",
          updates := [.setCopySuccess true],
          timers := [(2000, [.setCopySuccess false])] } ∧
    AppState.initial.copySuccess = false ∧
    (applyAll (copyToClipboard AppState.initial true).updates AppState.initial).copySuccess
      = true ∧
    downloadTranscript AppState.initial = none := by
  decide

/-- C11, amended: `copyToClipboard` has no guard of its own. In every state
it hands the resolved text to the clipboard, empty or not, and when the write
resolves it sets the copy indicator and registers the 2000 ms timeout; when
the write is rejected it changes nothing. The empty case is kept out by
rendering: the copy button is rendered only while the plain transcript is
truthy, and then the resolved text is truthy, so wherever the resolved text
is empty there is no copy button. -/
theorem copyToClipboard_guarded_by_rendering (s : AppState) :
    copyToClipboard s true
      = { writeText := textToCopy s,
          updates := [.setCopySuccess true],
          timers := [(2000, [.setCopySuccess false])] } ∧
    copyToClipboard s false = { writeText := textToCopy s, updates := [], timers := [] } ∧
    applyAll (copyToClipboard s true).updates s = { s with copySuccess := true } ∧
    applyAll (copyToClipboard s false).updates s = s ∧
    (copyButtonRendered s = true → (textToCopy s).truthy = true) ∧
    ((textToCopy s).truthy = false → copyButtonRendered s = false) := by
  have hr : copyButtonRendered s = true → (textToCopy s).truthy = true := by
    intro h
    simp only [copyButtonRendered] at h
    unfold textToCopy
    split
    · rename_i hb
      simp only [Bool.and_eq_true] at hb
      exact hb.2
    · exact h
  refine ⟨rfl, rfl, rfl, rfl, hr, ?_⟩
  intro hf
  cases hc : copyButtonRendered s with
  | false => rfl
  | true =>
    rw [hr hc] at hf
    exact absurd hf (by decide)

/-- Witness for C11 (amended): in the initial state the resolved text is
empty and the copy button is not rendered; after the scenario body it is
rendered and the resolved text is not empty. -/
theorem copyToClipboard_guarded_by_rendering_witness :
    copyButtonRendered AppState.initial = false ∧
    (textToCopy (submitFinal typedState (.response 200 (.json plainBody)))).truthy = true :=
  ⟨(copyToClipboard_guarded_by_rendering AppState.initial).2.2.2.2.2 (by decide),
   (copyToClipboard_guarded_by_rendering
      (submitFinal typedState (.response 200 (.json plainBody)))).2.2.2.2.1 (by decide)⟩

/-- C13: in every state one click on the timestamp button changes the flag
`includeTimestamps` and nothing else, and a second click, in the state the
first one left, gives back the original state: the mode and the text resolved
for copy, download and display are what they were. -/
theorem toggle_twice_restores (s : AppState) :
    applyAll (toggleTimestamps s) s = { s with includeTimestamps := !s.includeTimestamps } ∧
    applyAll (toggleTimestamps (applyAll (toggleTimestamps s) s))
        (applyAll (toggleTimestamps s) s) = s ∧
    (applyAll (toggleTimestamps (applyAll (toggleTimestamps s) s))
        (applyAll (toggleTimestamps s) s)).includeTimestamps = s.includeTimestamps ∧
    textToCopy (applyAll (toggleTimestamps (applyAll (toggleTimestamps s) s))
        (applyAll (toggleTimestamps s) s)) = textToCopy s ∧
    textToDownload (applyAll (toggleTimestamps (applyAll (toggleTimestamps s) s))
        (applyAll (toggleTimestamps s) s)) = textToDownload s ∧
    transcriptDisplay (applyAll (toggleTimestamps (applyAll (toggleTimestamps s) s))
        (applyAll (toggleTimestamps s) s)) = transcriptDisplay s := by
  have h2 : applyAll (toggleTimestamps (applyAll (toggleTimestamps s) s))
      (applyAll (toggleTimestamps s) s) = s := by
    simp [toggleTimestamps, applyAll, Update.apply]
  refine ⟨?_, h2, ?_, ?_, ?_, ?_⟩
  · simp [toggleTimestamps, applyAll, Update.apply]
  all_goals rw [h2]

/-- C16: for every state with a non-empty reference and every transport
outcome, `handleSubmit` issues exactly one request: a POST with content type
`application/json` whose body is the serialisation of an object with the
single field `youtubeUrl`, holding the reference as stored. -/
theorem handleSubmit_issues_one_request (s : AppState) (o : Outcome)
    (h : s.youtubeUrl ≠ "") :
    (handleSubmit s o).requests
      = [{ url := "http://127.0.0.1:5000/api/transcript",
           method := "POST",
           contentType := "application/json",
           payload := .obj (.cons "youtubeUrl" (.str s.youtubeUrl) .nil) }] ∧
    (handleSubmit s o).requests.length = 1 := by
  simp [handleSubmit, h, submitRequest]

/-- Witness for C16: a reference with upper-case letters, a query and a
fragment is sent as typed. -/
theorem handleSubmit_issues_one_request_witness :
    (handleSubmit ((Update.setYoutubeUrl "HTTPS://YouTu.be/abc123?t=1#x").apply AppState.initial)
        (.connectionError "Failed to fetch")).requests
      = [{ url := "http://127.0.0.1:5000/api/transcript",
           method := "POST",
           contentType := "application/json",
           payload := .obj (.cons "youtubeUrl" (.str "HTTPS://YouTu.be/abc123?t=1#x") .nil) }] :=
  (handleSubmit_issues_one_request
    ((Update.setYoutubeUrl "HTTPS://YouTu.be/abc123?t=1#x").apply AppState.initial)
    (.connectionError "Failed to fetch") (by decide)).1

/-- C14: for every prior state, every reference (empty or not) and every
transport outcome, each state `handleSubmit` passes through, the one at the
`await` and the final one among them, has the display mode of the prior
state. -/
theorem handleSubmit_keeps_display_mode (s : AppState) (o : Outcome) :
    (∀ st ∈ submitTrace s o, st.includeTimestamps = s.includeTimestamps) ∧
    s ∈ submitTrace s o ∧
    submitPending s o ∈ submitTrace s o ∧
    submitFinal s o ∈ submitTrace s o ∧
    (submitPending s o).includeTimestamps = s.includeTimestamps ∧
    (submitFinal s o).includeTimestamps = s.includeTimestamps := by
  have hall : ∀ st ∈ submitTrace s o, st.includeTimestamps = s.includeTimestamps := by
    apply statesAlong_preserves (fun st => st.includeTimestamps)
    intro u hu st
    by_cases h : s.youtubeUrl = ""
    · simp only [handleSubmit, h, if_true, validationUpdates, List.append_nil,
        List.mem_singleton] at hu
      subst hu
      rfl
    · obtain ⟨body, hb, hpres⟩ := completionUpdates_eq o
      simp only [handleSubmit, h, if_false, hb, pendingUpdates, List.mem_append, List.mem_cons,
        List.mem_singleton, List.not_mem_nil, or_false] at hu
      rcases hu with (hu | hu | hu | hu | hu | hu) | hu | hu
      · subst hu; rfl
      · subst hu; rfl
      · subst hu; rfl
      · subst hu; rfl
      · subst hu; rfl
      · subst hu; rfl
      · exact (hpres u hu st).2.1
      · subst hu; rfl
  have hp : submitPending s o ∈ submitTrace s o :=
    statesAlong_append_mem _ _ _ _ (statesAlong_head_mem _ _)
  have hf : submitFinal s o ∈ submitTrace s o := by
    have := applyAll_mem_statesAlong
      ((handleSubmit s o).beforeRequest ++ (handleSubmit s o).afterResponse) s
    rwa [applyAll_append] at this
  exact ⟨hall, statesAlong_head_mem _ _, hp, hf, hall _ hp, hall _ hf⟩

/-- Witness for C14: in Timestamped mode, the state at the `await` of a
submission that will fail is a state of the trace and is still in
Timestamped mode. -/
theorem handleSubmit_keeps_display_mode_witness :
    (submitPending stateTimestampsShown (.connectionError "Failed to fetch")).includeTimestamps
      = true :=
  (handleSubmit_keeps_display_mode stateTimestampsShown (.connectionError "Failed to fetch")).1
    (submitPending stateTimestampsShown (.connectionError "Failed to fetch"))
    ((handleSubmit_keeps_display_mode stateTimestampsShown
      (.connectionError "Failed to fetch")).2.2.1)

/-- C17: for every prior state with a non-empty reference and every
transport outcome (rejected fetch, status outside 200-299, unparsable body,
body with or without a truthy `error`), the loading flag is true in every
state of the run after its first setter call and before its last, the state
at the `await` among them, and false in the final state, where the submit
button is enabled again. -/
theorem handleSubmit_loading_flag (s : AppState) (o : Outcome) (h : s.youtubeUrl ≠ "") :
    (∀ st ∈ (submitTrace s o).tail.dropLast, st.isLoading = true) ∧
    submitPending s o ∈ (submitTrace s o).tail.dropLast ∧
    (submitTrace s o).getLast? = some (submitFinal s o) ∧
    (submitFinal s o).isLoading = false ∧
    submitDisabled (submitPending s o) = true ∧
    submitDisabled (submitFinal s o) = false := by
  obtain ⟨body, hb, hpres⟩ := completionUpdates_eq o
  have htrace : submitTrace s o
      = s :: (statesAlong ([.setError (.str ""), .setTranscript (.str ""), .setVideoInfo none,
                .setVideoMetadata .null, .setCopySuccess false] ++ body)
              ((Update.setIsLoading true).apply s) ++ [submitFinal s o]) := by
    have hfin : submitFinal s o
        = (Update.setIsLoading false).apply
            (applyAll (pendingUpdates ++ body) s) := by
      rw [submitFinal_of_reference s o h, hb, applyAll_append, applyAll_append]
      simp [submitPending, handleSubmit, h, applyAll]
    rw [hfin]
    simp only [submitTrace, handleSubmit, h, if_false, hb]
    rw [← List.append_assoc, statesAlong_concat]
    simp [pendingUpdates, statesAlong, applyAll]
  have hrest : ∀ u ∈ ([.setError (.str ""), .setTranscript (.str ""), .setVideoInfo none,
      .setVideoMetadata .null, .setCopySuccess false] ++ body : List Update),
      ∀ st : AppState, (u.apply st).isLoading = st.isLoading := by
    intro u hu st
    simp only [List.mem_append, List.mem_cons, List.mem_singleton, List.not_mem_nil,
      or_false] at hu
    rcases hu with (hu | hu | hu | hu | hu) | hu
    · subst hu; rfl
    · subst hu; rfl
    · subst hu; rfl
    · subst hu; rfl
    · subst hu; rfl
    · exact (hpres u hu st).1
  have hpend : submitPending s o
      = applyAll [.setError (.str ""), .setTranscript (.str ""), .setVideoInfo none,
          .setVideoMetadata .null, .setCopySuccess false] ((Update.setIsLoading true).apply s) := by
    simp [submitPending, handleSubmit, h, pendingUpdates, applyAll]
  have hmid : (submitTrace s o).tail.dropLast
      = statesAlong ([.setError (.str ""), .setTranscript (.str ""), .setVideoInfo none,
          .setVideoMetadata .null, .setCopySuccess false] ++ body)
          ((Update.setIsLoading true).apply s) := by
    rw [htrace, List.tail_cons, List.dropLast_concat]
  have hmem : submitPending s o ∈ (submitTrace s o).tail.dropLast := by
    rw [hmid, hpend]
    exact statesAlong_append_mem _ _ _ _ (statesAlong_head_mem _ _)
  have hloading : ∀ st ∈ (submitTrace s o).tail.dropLast, st.isLoading = true := by
    intro st hst
    rw [hmid] at hst
    rw [statesAlong_preserves (fun x => x.isLoading) _ hrest _ st hst]
    rfl
  have hfalse : (submitFinal s o).isLoading = false := by
    rw [submitFinal_of_reference s o h, hb, applyAll_append]
    rfl
  have hurl : (submitFinal s o).youtubeUrl = s.youtubeUrl := by
    have := statesAlong_preserves (fun x => x.youtubeUrl)
      ((handleSubmit s o).beforeRequest ++ (handleSubmit s o).afterResponse) ?_ s
      (submitFinal s o) (by
        have hm := applyAll_mem_statesAlong
          ((handleSubmit s o).beforeRequest ++ (handleSubmit s o).afterResponse) s
        rwa [applyAll_append] at hm)
    · exact this
    · intro u hu st
      simp only [handleSubmit, h, if_false, hb, pendingUpdates, List.mem_append, List.mem_cons,
        List.mem_singleton, List.not_mem_nil, or_false] at hu
      rcases hu with (hu | hu | hu | hu | hu | hu) | hu | hu
      · subst hu; rfl
      · subst hu; rfl
      · subst hu; rfl
      · subst hu; rfl
      · subst hu; rfl
      · subst hu; rfl
      · exact (hpres u hu st).2.2
      · subst hu; rfl
  refine ⟨hloading, hmem, ?_, hfalse, ?_, ?_⟩
  · rw [htrace, ← List.cons_append, List.getLast?_concat]
  · simp [submitDisabled, hloading _ hmem]
  · simp [submitDisabled, hfalse, hurl, h]

/-- Witness for C17: a 200 response whose body does not parse, after an
earlier success. -/
theorem handleSubmit_loading_flag_witness :
    (submitPending stateAfterTimestamped
        (.response 200 (.unparsable "Unexpected end of JSON input"))).isLoading = true ∧
    (submitFinal stateAfterTimestamped
        (.response 200 (.unparsable "Unexpected end of JSON input"))).isLoading = false ∧
    submitDisabled (submitFinal stateAfterTimestamped
        (.response 200 (.unparsable "Unexpected end of JSON input"))) = false :=
  ⟨(handleSubmit_loading_flag stateAfterTimestamped
      (.response 200 (.unparsable "Unexpected end of JSON input")) (by decide)).1 _
      (handleSubmit_loading_flag stateAfterTimestamped
        (.response 200 (.unparsable "Unexpected end of JSON input")) (by decide)).2.1,
   (handleSubmit_loading_flag stateAfterTimestamped
      (.response 200 (.unparsable "Unexpected end of JSON input")) (by decide)).2.2.2.1,
   (handleSubmit_loading_flag stateAfterTimestamped
      (.response 200 (.unparsable "Unexpected end of JSON input")) (by decide)).2.2.2.2.2⟩

/-- The storing path: for every prior state with a non-empty reference and
every 2xx response whose parsed body is not null and has no `error` field, the stored
plain transcript is the body's `transcript` and the stored timestamped text
is the body's `timestamped_transcript`, or the empty string when the body has
none (or a falsy one): then the text resolved for copy and download is the
body's plain transcript in either mode. The resolved text after the run is
the same from any two prior states in the same display mode. -/
theorem stored_body_resolved_text (s other : AppState) (st : Nat) (data : JSVal)
    (hu : s.youtubeUrl ≠ "") (ho : other.youtubeUrl ≠ "") (hs : statusOk st = true)
    (hd : data.nullish = false) (he : data.hasField "error" = false) :
    (submitFinal s (.response st (.json data))).transcript = data.field "transcript" ∧
    (submitFinal s (.response st (.json data))).timestampedTranscript
      = (data.field "timestamped_transcript").or (.str "") ∧
    ((data.field "timestamped_transcript").truthy = false →
      (submitFinal s (.response st (.json data))).timestampedTranscript = .str "" ∧
      textToCopy (submitFinal s (.response st (.json data))) = data.field "transcript" ∧
      textToDownload (submitFinal s (.response st (.json data))) = data.field "transcript") ∧
    (other.includeTimestamps = s.includeTimestamps →
      textToCopy (submitFinal other (.response st (.json data)))
        = textToCopy (submitFinal s (.response st (.json data))) ∧
      textToDownload (submitFinal other (.response st (.json data)))
        = textToDownload (submitFinal s (.response st (.json data))) ∧
      transcriptDisplay (submitFinal other (.response st (.json data)))
        = transcriptDisplay (submitFinal s (.response st (.json data)))) := by
  have hf := field_falsy_of_hasField_eq_false data "error" he
  rw [submitFinal_stored s st data hu hs hd hf, submitFinal_stored other st data ho hs hd hf]
  refine ⟨rfl, rfl, ?_, ?_⟩
  · intro ht
    have hor : (data.field "timestamped_transcript").or (.str "") = .str "" := by
      simp [JSVal.or, ht]
    have hempty : (JSVal.str "").truthy = false := rfl
    simp [hor, textToCopy, textToDownload, hempty]
  · intro hm
    simp [textToCopy, textToDownload, transcriptDisplay, hm]

/-- C18, evaluated at the failing input: in Timestamped mode, holding the
timestamped text of an earlier video, a 200 response whose body is `null` (a
body without an `error` field) makes `data.error` throw; the run ends in the
`catch` block and the text resolved for copy and download is the earlier
video's timestamped text. From a prior state in the same mode without such
text the same response resolves to the empty string: the resolved text
depends on the prior state. -/
theorem null_body_resolves_to_earlier_timestamped_text :
    JSVal.null.hasField "error" = false ∧
    statusOk 200 = true ∧
    stateTimestampsShown.includeTimestamps = true ∧
    stateTimestampsShown.timestampedTranscript = .str "[00:00] Hello world" ∧
    (submitFinal stateTimestampsShown (.response 200 (.json .null))).includeTimestamps
      = true ∧
    (submitFinal stateTimestampsShown (.response 200 (.json .null))).timestampedTranscript
      = .str "[00:00] Hello world" ∧
    textToCopy (submitFinal stateTimestampsShown (.response 200 (.json .null)))
      = .str "[00:00] Hello world" ∧
    textToDownload (submitFinal stateTimestampsShown (.response 200 (.json .null)))
      = .str "[00:00] Hello world" ∧
    (applyAll (toggleTimestamps typedState) typedState).includeTimestamps = true ∧
    textToCopy (submitFinal (applyAll (toggleTimestamps typedState) typedState)
        (.response 200 (.json .null))) = .str "" := by
  decide

/-- C12, as stated, fails: after resolved copies at 0 ms and 1000 ms, two
timeouts are outstanding, and at 2000 ms, one second before the second copy
is 2000 ms old, the first timeout fires and the indicator is false. -/
theorem copy_indicator_reverts_early :
    ((((Timed.start 0 stateAfterTimestamped).copy true).advance 1000).copy true).app.copySuccess
      = true ∧
    ((((Timed.start 0 stateAfterTimestamped).copy true).advance 1000).copy true).tasks
      = [(2000, [.setCopySuccess false]), (3000, [.setCopySuccess false])] ∧
    (((((Timed.start 0 stateAfterTimestamped).copy true).advance 1000).copy true).advance
      1999).app.copySuccess = true ∧
    (((((Timed.start 0 stateAfterTimestamped).copy true).advance 1000).copy true).advance
      2000).app.copySuccess = false ∧
    (((((Timed.start 0 stateAfterTimestamped).copy true).advance 1000).copy true).advance
      2000).tasks = [(3000, [.setCopySuccess false])] := by
  decide

/-- C12, amended: with time and the timeouts explicit, after a resolved copy
at time `t` (no timeout registered before) the indicator is true, stays true
at every time before `t + 2000` and, with no further copy, is false from
`t + 2000` on, no timeout left. After a second resolved copy at `t2` with
`t < t2 < t + 2000` both timeouts are outstanding and the indicator is true
until `t + 2000`; then the first timeout fires: the indicator is false from
`t + 2000` on, the second timeout still outstanding until `t2 + 2000`. -/
theorem copy_indicator_timeline (s : AppState) (t t2 : Nat) (h1 : t < t2)
    (h2 : t2 < t + 2000) :
    ((Timed.start t s).copy true).app.copySuccess = true ∧
    (∀ u : Nat, t ≤ u → u < t + 2000 →
      (((Timed.start t s).copy true).advance u).app.copySuccess = true ∧
      (((Timed.start t s).copy true).advance u).tasks.length = 1) ∧
    (∀ u : Nat, t + 2000 ≤ u →
      (((Timed.start t s).copy true).advance u).app.copySuccess = false ∧
      (((Timed.start t s).copy true).advance u).tasks = []) ∧
    ((((Timed.start t s).copy true).advance t2).copy true).app.copySuccess = true ∧
    (∀ u : Nat, t2 ≤ u → u < t + 2000 →
      (((((Timed.start t s).copy true).advance t2).copy true).advance u).app.copySuccess
        = true ∧
      (((((Timed.start t s).copy true).advance t2).copy true).advance u).tasks.length = 2) ∧
    (∀ u : Nat, t + 2000 ≤ u → u < t2 + 2000 →
      (((((Timed.start t s).copy true).advance t2).copy true).advance u).app.copySuccess
        = false ∧
      (((((Timed.start t s).copy true).advance t2).copy true).advance u).tasks.length = 1) ∧
    (∀ u : Nat, t2 + 2000 ≤ u →
      (((((Timed.start t s).copy true).advance t2).copy true).advance u).app.copySuccess
        = false ∧
      (((((Timed.start t s).copy true).advance t2).copy true).advance u).tasks = []) := by
  rw [copy_twice s t t2 h1 h2, copy_once]
  refine ⟨rfl, ?_, ?_, rfl, ?_, ?_, ?_⟩
  · intro u _ hu
    have h3 : ¬ (t + 2000 ≤ u) := by omega
    simp [Timed.advance, fireDue, h3]
  · intro u hu
    simp [Timed.advance, fireDue, hu, applyAll, Update.apply]
  · intro u _ hu
    have h3 : ¬ (t + 2000 ≤ u) := by omega
    have h4 : ¬ (t2 + 2000 ≤ u) := by omega
    simp [Timed.advance, fireDue, h3, h4]
  · intro u hu hu2
    have h4 : ¬ (t2 + 2000 ≤ u) := by omega
    simp [Timed.advance, fireDue, hu, h4, applyAll, Update.apply]
  · intro u hu
    have h3 : t + 2000 ≤ u := by omega
    simp [Timed.advance, fireDue, hu, h3, applyAll, Update.apply]

/-- Witness for C12 (amended): copies at 0 ms and 1000 ms; at 2500 ms the
indicator is false and one timeout is left. -/
theorem copy_indicator_timeline_witness :
    (((((Timed.start 0 stateAfterTimestamped).copy true).advance 1000).copy true).advance
      2500).app.copySuccess = false ∧
    (((((Timed.start 0 stateAfterTimestamped).copy true).advance 1000).copy true).advance
      2500).tasks.length = 1 :=
  (copy_indicator_timeline stateAfterTimestamped 0 1000 (by decide) (by decide)).2.2.2.2.2.1
    2500 (by decide) (by decide)

/-- C15, evaluated at the failing input: from the initial state, the
reference is typed, a submission succeeds with a body carrying timestamped
text, and a second submission is answered by a 200 body with an `error`
field. The final state is not loading, carries the non-empty error message
and no plain transcript, and still carries the timestamped text of the first
submission. -/
theorem failed_state_carries_timestamped_text :
    typedState = (Update.setYoutubeUrl "https://youtu.be/abc123").apply AppState.initial ∧
    (submitFinal (submitFinal typedState (.response 200 (.json timestampedBody)))
        (.response 200 (.json serviceErrorBody))).isLoading = false ∧
    (submitFinal (submitFinal typedState (.response 200 (.json timestampedBody)))
        (.response 200 (.json serviceErrorBody))).error
      = .str "Transcripts disabled for this video" ∧
    (submitFinal (submitFinal typedState (.response 200 (.json timestampedBody)))
        (.response 200 (.json serviceErrorBody))).error.truthy = true ∧
    (submitFinal (submitFinal typedState (.response 200 (.json timestampedBody)))
        (.response 200 (.json serviceErrorBody))).transcript = .str "" ∧
    (submitFinal (submitFinal typedState (.response 200 (.json timestampedBody)))
        (.response 200 (.json serviceErrorBody))).timestampedTranscript
      = .str "[00:00] Hello world" ∧
    (submitFinal (submitFinal typedState (.response 200 (.json timestampedBody)))
        (.response 200 (.json serviceErrorBody))).timestampedTranscript.truthy = true := by
  decide

end Transcript
